import Mathlib

/-!
Shallow embedding of `src/orchestrator/scripts/validate_feed.py`.

The program is a single linear validator: HTTP fetch, XML parse,
format-specific field extraction, three boolean checks, result assembly.
XML documents are modelled by the `Element` tree (tag, text, children),
mirroring `xml.etree.ElementTree`.  The I/O boundary (fetch plus parse)
is modelled by the `FetchOutcome` type: a request either times out,
fails with some other exception, or yields a response with a status
code and a body; the body either parses to a root `Element` or is
malformed with a parse-error message.  Each Python `except` clause
becomes a branch of the pure function.
-/

namespace FeedValidator

/-- XML element: tag, optional text content, list of direct children,
mirroring `xml.etree.ElementTree.Element`. -/
inductive Element : Type where
  | mk : String → Option String → List Element → Element
deriving Inhabited

def Element.tag : Element → String
  | .mk t _ _ => t

def Element.text : Element → Option String
  | .mk _ x _ => x

def Element.children : Element → List Element
  | .mk _ _ c => c

/-- ElementTree `find`: first direct child with the given tag, if any. -/
def find (e : Element) (t : String) : Option Element :=
  e.children.find? (fun c => c.tag == t)

/-- ElementTree `findall`: all direct children with the given tag, in order. -/
def findall (e : Element) (t : String) : List Element :=
  e.children.filter (fun c => c.tag == t)

/-- ElementTree `findtext(tag, default)`: the text of the first matching
child (empty string when that child has no text), else the default. -/
def findtext (e : Element) (t d : String) : String :=
  match find e t with
  | none => d
  | some c => c.text.getD ""

/-- The result dict built by `validate_rss_feed` (source lines 25 to 34). -/
structure ValidationResult where
  url : String
  valid : Bool
  title : Option String
  item_count : Nat
  latest_date : Option String
  sample_headlines : List String
  language : Option String
  errors : List String
deriving DecidableEq, Inhabited

/-- Initial result dict: everything defaulted (source lines 25 to 34). -/
def initResult (url : String) : ValidationResult :=
  { url := url
    valid := false
    title := none
    item_count := 0
    latest_date := none
    sample_headlines := []
    language := none
    errors := [] }

/-- Whether the parsed body is a well-formed document or raises
`ET.ParseError` with a message. -/
inductive Body : Type where
  | wellFormed : Element → Body
  | malformed : String → Body

/-- Outcome of `requests.get`: timeout, some other exception, or a
response carrying an HTTP status code and a body. -/
inductive FetchOutcome : Type where
  | timeout : FetchOutcome
  | otherError : String → FetchOutcome
  | response : Nat → Body → FetchOutcome

/-- Qualified name of an Atom feed root, `\x7bhttp://www.w3.org/2005/Atom\x7dfeed`. -/
def atomFeedTag : String := "\x7bhttp://www.w3.org/2005/Atom\x7dfeed"

/-- Qualified name of an Atom title element. -/
def atomTitleTag : String := "\x7bhttp://www.w3.org/2005/Atom\x7dtitle"

/-- Qualified name of an Atom entry element. -/
def atomEntryTag : String := "\x7bhttp://www.w3.org/2005/Atom\x7dentry"

/-- Non-empty titles of the given items in order, each read with
`findtext(tagName, "")`; items whose title is missing or empty are
skipped.  This is the headline half of the source loop over `items[:5]`
(lines 58 to 61 for RSS, 75 to 78 for Atom). -/
def collectHeadlines (tagName : String) : List Element → List String
  | [] => []
  | item :: rest =>
      let t := findtext item tagName ""
      if t == "" then collectHeadlines tagName rest
      else t :: collectHeadlines tagName rest

/-- First non-empty `pubDate` text of the given items, if any.  This is
the date half of the source loop over `items[:5]` (lines 63 to 66): the
loop only assigns when `latest_date` is still unset, so the first
non-empty `pubDate` encountered wins. -/
def firstPubDate : List Element → Option String
  | [] => none
  | item :: rest =>
      let p := findtext item "pubDate" ""
      if p == "" then firstPubDate rest else some p

/-- RSS branch of the format dispatch (source lines 48 to 66): locate the
`channel` child; when present, read title and language, count the `item`
children, and run the extraction loop over the first five items.  A
missing `channel` leaves every field at its default. -/
def extractRss (url : String) (root : Element) : ValidationResult :=
  match find root "channel" with
  | none => initResult url
  | some channel =>
      let items := findall channel "item"
      { initResult url with
          title := some (findtext channel "title" "")
          language := some (findtext channel "language" "")
          item_count := items.length
          sample_headlines := collectHeadlines "title" (items.take 5)
          latest_date := firstPubDate (items.take 5) }

/-- Atom branch of the format dispatch (source lines 68 to 78): read the
namespaced title, count the namespaced `entry` children, and collect
headlines from the first five entries.  Language and latest date are
never populated here. -/
def extractAtom (url : String) (root : Element) : ValidationResult :=
  let entries := findall root atomEntryTag
  { initResult url with
      title := some (findtext root atomTitleTag "")
      item_count := entries.length
      sample_headlines := collectHeadlines atomTitleTag (entries.take 5) }

/-- The two validation checks and the recomputation of `valid`
(source lines 84 to 90). -/
def finalize (r : ValidationResult) : ValidationResult :=
  let e1 := if r.item_count < 2 then r.errors ++ ["Feed has fewer than 2 items"]
            else r.errors
  let e2 := if r.sample_headlines.isEmpty then e1 ++ ["No headlines found in feed"]
            else e1
  { r with errors := e2, valid := e2.isEmpty }

/-- Format dispatch on the root tag (source lines 48 to 90): RSS and Atom
branches run extraction then the checks; any other root tag records an
unknown-format error and returns immediately. -/
def validateDoc (url : String) (root : Element) : ValidationResult :=
  if root.tag = "rss" then
    finalize (extractRss url root)
  else if root.tag = atomFeedTag then
    finalize (extractAtom url root)
  else
    { initResult url with errors := ["Unknown feed format: " ++ root.tag] }

/-- The whole of `validate_rss_feed` (source lines 18 to 101).
`requests.Response.raise_for_status` raises `HTTPError` exactly for
status codes in `[400, 600)`; each `except` clause appends its message
to the (still empty) error list of the default result. -/
def validate_rss_feed (url : String) : FetchOutcome → ValidationResult
  | .timeout => { initResult url with errors := ["Request timed out"] }
  | .otherError msg => { initResult url with errors := ["Error: " ++ msg] }
  | .response status body =>
      if 400 ≤ status ∧ status < 600 then
        { initResult url with errors := ["HTTP error: " ++ toString status] }
      else
        match body with
        | .malformed msg => { initResult url with errors := ["XML parse error: " ++ msg] }
        | .wellFormed root => validateDoc url root

/-- The item list the RSS branch works on: the `item` children of the
`channel` child, or nothing when `channel` is absent. -/
def rssItems (root : Element) : List Element :=
  match find root "channel" with
  | none => []
  | some channel => findall channel "item"

/-- The `entry` list the Atom branch works on. -/
def atomEntries (root : Element) : List Element :=
  findall root atomEntryTag

/-- Characterisation used by the claims: the first non-empty `pubDate`
text among the given items, in document order. -/
def firstNonEmptyPubDate (l : List Element) : Option String :=
  (l.map (fun i => findtext i "pubDate" "")).find? (fun p => !(p == ""))

/-- Characterisation used by the claims: the non-empty titles of the
given items, in document order. -/
def headlinesOf (tagName : String) (l : List Element) : List String :=
  (l.map (fun i => findtext i tagName "")).filter (fun t => !(t == ""))

/-- Batch-file line filter of `main` (source line 116): keep lines whose
strip is non-empty and that do not start with a hash, stripped. -/
def batchUrls (lines : List String) : List String :=
  (lines.filter (fun l => !(l.trim == "") && !(l.startsWith "#"))).map (fun l => l.trim)

/-- URL selection of `main` (source lines 113 to 121): a batch file wins
over the positional URL; with neither, `main` prints usage and exits 1,
modelled by `none`. -/
def selectUrls (urlArg : Option String) (batch : Option (List String)) :
    Option (List String) :=
  match batch with
  | some lines => some (batchUrls lines)
  | none =>
      match urlArg with
      | some u => some [u]
      | none => none

/-- The driver loop and exit code of `main` (source lines 113 to 148):
validate each selected URL in order, exit 0 when every result is valid,
exit 1 otherwise and in the no-input case.  The network is abstracted as
an oracle from URL to fetch outcome. -/
def runMain (urlArg : Option String) (batch : Option (List String))
    (oracle : String → FetchOutcome) : List ValidationResult × Nat :=
  match selectUrls urlArg batch with
  | none => ([], 1)
  | some urls =>
      let results := urls.map (fun u => validate_rss_feed u (oracle u))
      (results, if results.all (fun r => r.valid) then 0 else 1)

/-! Concrete documents used as witnesses and counterexamples. -/

/-- An RSS item with only a title child. -/
def itemT (t : String) : Element :=
  .mk "item" none [.mk "title" (some t) []]

/-- An RSS item with a title child and a pubDate child. -/
def itemTP (t p : String) : Element :=
  .mk "item" none [.mk "title" (some t) [], .mk "pubDate" (some p) []]

/-- RSS document with six items where only the sixth has a pubDate. -/
def docSixthDated : Element :=
  .mk "rss" none [.mk "channel" none
    [itemT "h1", itemT "h2", itemT "h3", itemT "h4", itemT "h5",
     itemTP "h6" "Mon, 01 Jan 2024 00:00:00 GMT"]]

/-- RSS document with seven titled items. -/
def docSeven : Element :=
  .mk "rss" none [.mk "channel" none
    [itemT "t1", itemT "t2", itemT "t3", itemT "t4", itemT "t5",
     itemT "t6", itemT "t7"]]

/-- Well-formed valid RSS document with two titled items. -/
def docGood : Element :=
  .mk "rss" none [.mk "channel" none
    [.mk "title" (some "Feed") [], itemT "a", itemT "b"]]

/-- Well-formed document whose root tag is neither RSS nor Atom. -/
def docHtml : Element :=
  .mk "html" none []

/-- RSS root with no channel child. -/
def docNoChannel : Element :=
  .mk "rss" none [.mk "body" none []]

/-! Helper lemmas. -/

theorem collectHeadlines_eq (tagName : String) (l : List Element) :
    collectHeadlines tagName l = headlinesOf tagName l := by
  induction l with
  | nil => rfl
  | cons i rest ih =>
      simp only [collectHeadlines, headlinesOf, List.map_cons, List.filter_cons]
      cases hb : findtext i tagName "" == "" <;>
        simp_all [headlinesOf]

theorem firstPubDate_eq (l : List Element) :
    firstPubDate l = firstNonEmptyPubDate l := by
  induction l with
  | nil => rfl
  | cons i rest ih =>
      simp only [firstPubDate, firstNonEmptyPubDate, List.map_cons, List.find?_cons]
      cases hb : findtext i "pubDate" "" == "" <;>
        simp_all [firstNonEmptyPubDate]

theorem validate_response_ok (url : String) (status : Nat) (root : Element)
    (hs : ¬ (400 ≤ status ∧ status < 600)) :
    validate_rss_feed url (.response status (.wellFormed root)) = validateDoc url root := by
  simp [validate_rss_feed, hs]

theorem validateDoc_rss (url : String) (root : Element) (hr : root.tag = "rss") :
    validateDoc url root = finalize (extractRss url root) := by
  simp [validateDoc, hr]

theorem finalize_latest_date (r : ValidationResult) :
    (finalize r).latest_date = r.latest_date := rfl

theorem finalize_sample_headlines (r : ValidationResult) :
    (finalize r).sample_headlines = r.sample_headlines := rfl

theorem finalize_item_count (r : ValidationResult) :
    (finalize r).item_count = r.item_count := rfl

theorem finalize_valid_iff (r : ValidationResult) :
    ((finalize r).valid = true ↔ (finalize r).errors = []) := by
  simp only [finalize]
  exact List.isEmpty_iff

theorem validateDoc_atom (url : String) (root : Element) (hr : root.tag = atomFeedTag) :
    validateDoc url root = finalize (extractAtom url root) := by
  have h1 : ¬ root.tag = "rss" := by rw [hr]; decide
  unfold validateDoc
  rw [if_neg h1, if_pos hr]

theorem collectHeadlines_length_le (tagName : String) (l : List Element) :
    (collectHeadlines tagName l).length ≤ l.length := by
  rw [collectHeadlines_eq]
  calc (headlinesOf tagName l).length
      ≤ (l.map (fun i => findtext i tagName "")).length := List.length_filter_le _ _
    _ = l.length := List.length_map _ _

theorem mem_collectHeadlines_ne (tagName : String) (l : List Element) (t : String)
    (ht : t ∈ collectHeadlines tagName l) : t ≠ "" := by
  rw [collectHeadlines_eq] at ht
  have hp := List.of_mem_filter ht
  simpa using hp

theorem sample_headlines_length_le (url : String) (outcome : FetchOutcome) :
    (validate_rss_feed url outcome).sample_headlines.length
      ≤ min 5 (validate_rss_feed url outcome).item_count := by
  cases outcome with
  | timeout => simp [validate_rss_feed, initResult]
  | otherError msg => simp [validate_rss_feed, initResult]
  | response status body =>
      by_cases hs : 400 ≤ status ∧ status < 600
      · simp [validate_rss_feed, hs, initResult]
      · cases body with
        | malformed msg => simp [validate_rss_feed, hs, initResult]
        | wellFormed root =>
            rw [validate_response_ok url status root hs]
            unfold validateDoc
            split
            · rw [finalize_sample_headlines, finalize_item_count]
              unfold extractRss
              cases hch : find root "channel" with
              | none => simp [initResult]
              | some channel =>
                  simp only []
                  calc (collectHeadlines "title" ((findall channel "item").take 5)).length
                      ≤ ((findall channel "item").take 5).length :=
                        collectHeadlines_length_le _ _
                    _ = min 5 (findall channel "item").length := List.length_take _ _
            · split
              · rw [finalize_sample_headlines, finalize_item_count]
                unfold extractAtom
                simp only []
                calc (collectHeadlines atomTitleTag ((findall root atomEntryTag).take 5)).length
                    ≤ ((findall root atomEntryTag).take 5).length :=
                      collectHeadlines_length_le _ _
                  _ = min 5 (findall root atomEntryTag).length := List.length_take _ _
              · simp [initResult]

/-! Claim theorems. -/

/-- C1, amended: for every RSS document fetched with a non-error status,
`latest_date` is the first non-empty `pubDate` text among the FIRST FIVE
items in document order (absent when none of the first five has one);
the claim as stated, which scans all items, fails because the source
loop runs over `items[:5]` only. -/
theorem C1_latest_date (url : String) (status : Nat) (root : Element)
    (hs : ¬ (400 ≤ status ∧ status < 600)) (hr : root.tag = "rss") :
    (validate_rss_feed url (.response status (.wellFormed root))).latest_date
      = firstNonEmptyPubDate ((rssItems root).take 5) := by
  rw [validate_response_ok url status root hs, validateDoc_rss url root hr,
    finalize_latest_date]
  unfold extractRss rssItems
  cases h : find root "channel" with
  | none => rfl
  | some channel => simpa using firstPubDate_eq ((findall channel "item").take 5)

/-- C1 witness: on a document whose first five items carry no date,
`latest_date` agrees with the first-five characterisation and is absent. -/
theorem C1_latest_date_witness :
    (validate_rss_feed "u" (.response 200 (.wellFormed docSixthDated))).latest_date
        = firstNonEmptyPubDate ((rssItems docSixthDated).take 5) ∧
      firstNonEmptyPubDate ((rssItems docSixthDated).take 5) = none :=
  ⟨C1_latest_date "u" 200 docSixthDated (by decide) rfl, by decide⟩

/-- C1 counterexample: in `docSixthDated` the sixth item is the first with
a non-empty `pubDate`, yet the returned `latest_date` is absent, refuting
the claim that the scan covers all items in document order. -/
theorem C1_counterexample :
    firstNonEmptyPubDate (rssItems docSixthDated)
        = some "Mon, 01 Jan 2024 00:00:00 GMT" ∧
      (validate_rss_feed "u" (.response 200 (.wellFormed docSixthDated))).latest_date
        = none := by
  constructor <;> decide

/-- C2: the validator is a total function into `ValidationResult`; each
failure at the fetch or parse boundary (timeout, other exception, HTTP
error status, XML parse error) is converted into the corresponding entry
of the result's errors list rather than propagating. -/
theorem C2_failures_captured (url : String) (outcome : FetchOutcome) :
    (outcome = .timeout →
        (validate_rss_feed url outcome).errors = ["Request timed out"]) ∧
    (∀ msg, outcome = .otherError msg →
        (validate_rss_feed url outcome).errors = ["Error: " ++ msg]) ∧
    (∀ status body, outcome = .response status body → 400 ≤ status ∧ status < 600 →
        (validate_rss_feed url outcome).errors = ["HTTP error: " ++ toString status]) ∧
    (∀ status msg, outcome = .response status (.malformed msg) →
        ¬ (400 ≤ status ∧ status < 600) →
        (validate_rss_feed url outcome).errors = ["XML parse error: " ++ msg]) := by
  refine ⟨?_, ?_, ?_, ?_⟩
  · rintro rfl; rfl
  · rintro msg rfl; rfl
  · rintro status body rfl hs
    simp only [validate_rss_feed]
    rw [if_pos hs]
  · rintro status msg rfl hs
    simp only [validate_rss_feed]
    rw [if_neg hs]

/-- C2 witness: a timed-out request is reported through the errors list. -/
theorem C2_failures_captured_witness :
    (validate_rss_feed "u" .timeout).errors = ["Request timed out"] :=
  (C2_failures_captured "u" .timeout).1 rfl

/-- C3: on every execution path the returned result satisfies
`valid == (errors is empty)`. -/
theorem C3_valid_iff_errors_empty (url : String) (outcome : FetchOutcome) :
    ((validate_rss_feed url outcome).valid = true ↔
      (validate_rss_feed url outcome).errors = []) := by
  cases outcome with
  | timeout => simp [validate_rss_feed, initResult]
  | otherError msg => simp [validate_rss_feed, initResult]
  | response status body =>
      by_cases hs : 400 ≤ status ∧ status < 600
      · simp [validate_rss_feed, hs, initResult]
      · cases body with
        | malformed msg => simp [validate_rss_feed, hs, initResult]
        | wellFormed root =>
            rw [validate_response_ok url status root hs]
            unfold validateDoc
            split
            · exact finalize_valid_iff _
            · split
              · exact finalize_valid_iff _
              · simp [initResult]

/-- C4: a well-formed document whose root tag is neither `rss` nor the
Atom-namespaced `feed` yields exactly the unknown-format error and an
otherwise default result (item count 0, invalid, no check errors). -/
theorem C4_unknown_format (url : String) (status : Nat) (root : Element)
    (hs : ¬ (400 ≤ status ∧ status < 600))
    (h1 : root.tag ≠ "rss") (h2 : root.tag ≠ atomFeedTag) :
    validate_rss_feed url (.response status (.wellFormed root))
      = { initResult url with errors := ["Unknown feed format: " ++ root.tag] } := by
  rw [validate_response_ok url status root hs]
  unfold validateDoc
  rw [if_neg h1, if_neg h2]

/-- C4 witness: a document with root tag `html` is rejected with exactly
the unknown-format error. -/
theorem C4_unknown_format_witness :
    validate_rss_feed "u" (.response 200 (.wellFormed docHtml))
      = { initResult "u" with errors := ["Unknown feed format: " ++ docHtml.tag] } :=
  C4_unknown_format "u" 200 docHtml (by decide) (by decide) (by decide)

/-- C5: for every recognised feed, `sample_headlines` is exactly the
sequence of non-empty titles among the first five items in document
order, and its length is at most `min 5 item_count`. -/
theorem C5_sample_headlines (url : String) (status : Nat) (root : Element)
    (hs : ¬ (400 ≤ status ∧ status < 600)) :
    (root.tag = "rss" →
        (validate_rss_feed url (.response status (.wellFormed root))).sample_headlines
          = headlinesOf "title" ((rssItems root).take 5)) ∧
    (root.tag = atomFeedTag →
        (validate_rss_feed url (.response status (.wellFormed root))).sample_headlines
          = headlinesOf atomTitleTag ((atomEntries root).take 5)) ∧
    (validate_rss_feed url (.response status (.wellFormed root))).sample_headlines.length
      ≤ min 5 (validate_rss_feed url (.response status (.wellFormed root))).item_count := by
  refine ⟨?_, ?_, sample_headlines_length_le url _⟩
  · intro hr
    rw [validate_response_ok url status root hs, validateDoc_rss url root hr,
      finalize_sample_headlines]
    unfold extractRss rssItems
    cases hch : find root "channel" with
    | none => rfl
    | some channel => simpa using collectHeadlines_eq "title" ((findall channel "item").take 5)
  · intro hr
    rw [validate_response_ok url status root hs, validateDoc_atom url root hr,
      finalize_sample_headlines]
    unfold extractAtom atomEntries
    simpa using collectHeadlines_eq atomTitleTag ((findall root atomEntryTag).take 5)

/-- C5 witness: an RSS document with seven titled items yields exactly
the first five titles, in document order. -/
theorem C5_sample_headlines_witness :
    (validate_rss_feed "u" (.response 200 (.wellFormed docSeven))).sample_headlines
      = ["t1", "t2", "t3", "t4", "t5"] := by
  have h := (C5_sample_headlines "u" 200 docSeven (by decide)).1 rfl
  rw [h]
  decide

/-- C6: an `rss` root with no `channel` child is not itself an error:
title and language stay absent, item count is 0, and the errors list is
exactly the two generic check errors. -/
theorem C6_missing_channel (url : String) (status : Nat) (root : Element)
    (hs : ¬ (400 ≤ status ∧ status < 600)) (hr : root.tag = "rss")
    (hc : find root "channel" = none) :
    validate_rss_feed url (.response status (.wellFormed root))
      = { initResult url with
            errors := ["Feed has fewer than 2 items", "No headlines found in feed"] } := by
  rw [validate_response_ok url status root hs, validateDoc_rss url root hr]
  unfold extractRss
  rw [hc]
  rfl

/-- C6 witness: an `rss` root whose only child is `body` gets only the
two generic check errors, with title, language and counts defaulted. -/
theorem C6_missing_channel_witness :
    validate_rss_feed "u" (.response 200 (.wellFormed docNoChannel))
      = { initResult "u" with
            errors := ["Feed has fewer than 2 items", "No headlines found in feed"] } :=
  C6_missing_channel "u" 200 docNoChannel (by decide) rfl rfl

/-- C7: a timed-out request yields exactly the timeout error on top of
the fully defaulted result: url echoed, invalid, title and language and
latest date absent, item count 0, no headlines. -/
theorem C7_timeout (url : String) :
    validate_rss_feed url .timeout
      = { initResult url with errors := ["Request timed out"] } := rfl

/-- C8, amended: a fetch returning a 4xx or 5xx status yields exactly one
error, "HTTP error: " followed by the status code, on an otherwise
default result, so no parsing or validation checks run; the claim as
stated over all non-2xx statuses fails because `raise_for_status` does
not raise on 3xx. -/
theorem C8_http_error (url : String) (status : Nat) (body : Body)
    (h4 : 400 ≤ status) (h6 : status < 600) :
    validate_rss_feed url (.response status body)
      = { initResult url with errors := ["HTTP error: " ++ toString status] } := by
  simp only [validate_rss_feed]
  rw [if_pos (And.intro h4 h6)]

/-- C8 witness: a 404 response is reported as exactly one HTTP error with
the status code, regardless of its body. -/
theorem C8_http_error_witness :
    validate_rss_feed "u" (.response 404 (.wellFormed docGood))
      = { initResult "u" with errors := ["HTTP error: " ++ toString 404] } :=
  C8_http_error "u" 404 (.wellFormed docGood) (by decide) (by decide)

/-- C8 counterexample: a final status of 300 is non-2xx, yet the code
parses and validates the body and reports no HTTP error at all, refuting
the claim for non-2xx statuses outside 4xx and 5xx. -/
theorem C8_counterexample :
    (validate_rss_feed "u" (.response 300 (.wellFormed docGood))).errors = [] ∧
      (validate_rss_feed "u" (.response 300 (.wellFormed docGood))).valid = true := by
  constructor <;> decide

/-- C9: the driver exits 0 exactly when input was supplied and every
processed result is valid, and 1 otherwise, the no-input case included;
the results appear in input order, one per selected URL. -/
theorem C9_exit_code (urlArg : Option String) (batch : Option (List String))
    (oracle : String → FetchOutcome) :
    (runMain urlArg batch oracle).1
        = ((selectUrls urlArg batch).getD []).map
            (fun u => validate_rss_feed u (oracle u)) ∧
      (runMain urlArg batch oracle).2
        = (if ((selectUrls urlArg batch).isSome
                && (runMain urlArg batch oracle).1.all (fun r => r.valid))
           then 0 else 1) := by
  rcases h : selectUrls urlArg batch with _ | urls <;> simp [runMain, h]

/-- C10: every element of `sample_headlines` is a non-empty string, on
every execution path: items whose title is missing or empty are skipped. -/
theorem C10_headlines_nonempty (url : String) (outcome : FetchOutcome)
    (h : String) (hm : h ∈ (validate_rss_feed url outcome).sample_headlines) :
    h ≠ "" := by
  cases outcome with
  | timeout => simp [validate_rss_feed, initResult] at hm
  | otherError msg => simp [validate_rss_feed, initResult] at hm
  | response status body =>
      by_cases hs : 400 ≤ status ∧ status < 600
      · simp [validate_rss_feed, hs, initResult] at hm
      · cases body with
        | malformed msg => simp [validate_rss_feed, hs, initResult] at hm
        | wellFormed root =>
            rw [validate_response_ok url status root hs] at hm
            unfold validateDoc at hm
            split at hm
            · rw [finalize_sample_headlines] at hm
              unfold extractRss at hm
              cases hch : find root "channel" with
              | none => rw [hch] at hm; simp [initResult] at hm
              | some channel =>
                  rw [hch] at hm
                  exact mem_collectHeadlines_ne _ _ _ (by simpa using hm)
            · split at hm
              · rw [finalize_sample_headlines] at hm
                unfold extractAtom at hm
                exact mem_collectHeadlines_ne _ _ _ (by simpa using hm)
              · simp [initResult] at hm

/-- C10 witness: the first headline of a concrete seven-item document is
a member of `sample_headlines` and is non-empty. -/
theorem C10_headlines_nonempty_witness :
    ("t1" ∈ (validate_rss_feed "u"
        (.response 200 (.wellFormed docSeven))).sample_headlines) ∧
      "t1" ≠ "" := by
  have hm : "t1" ∈ (validate_rss_feed "u"
      (.response 200 (.wellFormed docSeven))).sample_headlines := by decide
  exact ⟨hm, C10_headlines_nonempty "u" _ "t1" hm⟩

end FeedValidator
